import Mathlib

/-!
Verification of `packages/react-cosmos-loader/src/connect-loader.js`.

The module is a message-driven state machine connecting a fixture loader to a
remote "playground" host over a postMessage channel.  The JS module keeps three
module-level mutable variables (`unbindPrev`, `selected`, `hasFixtureUpdate`)
and registers/unregisters a `window` message listener.  We embed the module as
explicit state passing: each entry point is a function from a `LoaderState`
(plus its inputs) to a `StepResult` bundling the new state, the ordered list of
observable effects (listener registration, context mounts, messages posted to
the parent, console errors, the error-dismissal hook), and an `ok` flag that is
`false` when the JS code would throw (an unguarded property access on
`undefined`, see `onMessage` on `fixtureEdit` and the rebind resync path).

JS objects are embedded as association lists (`Obj`), with lookup returning the
first matching key, `objSet` replacing in place or appending (JS property
assignment), and `objAssign` folding assignments left to right, matching the
semantics of object spread and of `lodash.merge` on objects whose values are
scalars (fixture values are modelled as opaque scalars tagged serializable or
unserializable, so the deep-merge behaviour of `lodash.merge` never differs
from assignment here).
-/

namespace ConnectLoader

/-- A fixture field value: either serializable data (safe to post to the
parent frame) or an unserializable value (function, element, ...).  The payload
is an opaque natural number standing for the concrete JS value. -/
inductive FixtureValue
  | ser (v : Nat)
  | unser (v : Nat)
deriving DecidableEq, Repr

def FixtureValue.isSer : FixtureValue → Bool
  | .ser _ => true
  | .unser _ => false

/-- A JS object embedded as an association list from property names to
values.  Lookup returns the first binding of a key. -/
abbrev Obj (α : Type) := List (String × α)

/-- A fixture body: a flat JS object of tagged values. -/
abbrev Fixture := Obj FixtureValue

/-- The fixture registry: component name to fixture name to fixture body. -/
abbrev Fixtures := Obj (Obj Fixture)

/-- JS property read `o[k]`: `undefined` becomes `none`. -/
def objGet (o : Obj α) (k : String) : Option α :=
  (o.find? (fun p => p.1 == k)).map (fun p => p.2)

/-- JS property write `o[k] = v`: replaces the binding in place when the key
is present, appends it otherwise. -/
def objSet (o : Obj α) (k : String) (v : α) : Obj α :=
  if o.any (fun p => p.1 == k) then
    o.map (fun p => if p.1 == k then (k, v) else p)
  else o ++ [(k, v)]

/-- JS `Object.assign(dst, src)` / object spread: assigns the bindings of
`src` into `dst` left to right. -/
def objAssign (dst src : Obj α) : Obj α :=
  src.foldl (fun acc p => objSet acc p.1 p.2) dst

/-- The property names of an object, in order (JS `Object.keys`). -/
def objKeys (o : Obj α) : List String := o.map (fun p => p.1)

/-- Modelled from the spec: `splitUnserializableParts` is imported from the
`react-cosmos-shared` package, whose source is not part of the given file set.
Spec section 6 describes it as the pure, deterministic Serialization Splitter,
`split(value) -> (serializable, unserializable)`, partitioning a fixture value
into a serializable subset and an unserializable subset.  Returns the pair
`(serializable, unserializable)`. -/
def splitUnserializableParts (f : Fixture) : Fixture × Fixture :=
  (f.filter (fun p => p.2.isSer), f.filter (fun p => !p.2.isSer))

/-- The serializable part of a fixture, as posted to the parent frame. -/
def serializablePart (f : Fixture) : Fixture :=
  (splitUnserializableParts f).1

/-- The serializable part of a possibly-`undefined` fixture.  The `none` case
only arises after the unguarded registry lookup mounts an `undefined` fixture;
the splitter interface in the spec does not cover `undefined`, and no claim
depends on the value chosen here. -/
def serializablePartOpt : Option Fixture → Fixture
  | some f => serializablePart f
  | none => []

/-- `applyFixturePart` from the source: splits the current registry fixture
and merges, via `merge(\x7b\x7d, unserializable, \x7b...serializable,
...fixturePart\x7d)`, the unserializable parts with the serializable parts
overridden by the edit body (whose values, coming from the host over the
channel, are serializable). -/
def applyFixturePart (currentFixture : Fixture) (fixturePart : Obj Nat) : Fixture :=
  let parts := splitUnserializableParts currentFixture
  objAssign (objAssign [] parts.2)
    (objAssign parts.1 (fixturePart.map (fun p => (p.1, FixtureValue.ser p.2))))

/-- `extractFixtureNames` from the source: the registry projected to component
name to list of fixture names, with no fixture bodies. -/
def extractFixtureNames (fixtures : Fixtures) : Obj (List String) :=
  fixtures.foldl (fun acc p => objSet acc p.1 (objKeys p.2)) []

/-- Outbound messages posted to the parent frame (`postMessageToParent`). -/
inductive OutMessage
  | loaderReady (fixtures : Obj (List String))
  | fixtureListUpdate (fixtures : Obj (List String))
  | fixtureLoad (fixtureBody : Fixture)
  | fixtureUpdate (fixtureBody : Fixture)
deriving DecidableEq, Repr

/-- Inbound messages from the parent frame, dispatched on `data.type`.
`other` stands for any message whose type is neither `fixtureSelect` nor
`fixtureEdit`. -/
inductive InMessage
  | fixtureSelect (component fixture : String)
  | fixtureEdit (fixtureBody : Obj Nat)
  | other
deriving DecidableEq, Repr

/-- Observable effects, in program order: listener (de)registration on
`window`, context creation and mount, messages posted to the parent, console
errors, and the optional `dismissRuntimeErrors` hook.  A mounted fixture of
`none` is a mount of the JS value `undefined`. -/
inductive Effect
  | addListener (id : Nat)
  | removeListener (id : Nat)
  | mountContext (fixture : Option Fixture)
  | post (msg : OutMessage)
  | logError (msg : String)
  | dismissErrors
deriving DecidableEq, Repr

def Effect.isMount : Effect → Bool
  | .mountContext _ => true
  | _ => false

def Effect.isRemoveListener : Effect → Bool
  | .removeListener _ => true
  | _ => false

def Effect.isLoaderReady : Effect → Bool
  | .post (.loaderReady _) => true
  | _ => false

def Effect.isFixtureListUpdate : Effect → Bool
  | .post (.fixtureListUpdate _) => true
  | _ => false

def Effect.isFixtureLoad : Effect → Bool
  | .post (.fixtureLoad _) => true
  | _ => false

def Effect.isLogError : Effect → Bool
  | .logError _ => true
  | _ => false

/-- The module-level mutable state of `connect-loader.js`, plus the set of
listeners currently registered on `window` (`listeners`) and a counter
allocating a fresh identity for each `onMessage` closure (`nextId`): every
call to `connectLoader` creates a new `onMessage` closure, which is a distinct
listener for `addEventListener`. -/
structure LoaderState where
  unbindPrev : Option Nat
  selected : Option (String × String)
  hasFixtureUpdate : Bool
  listeners : List Nat
  nextId : Nat
deriving DecidableEq, Repr

/-- The state at module load: no binding, no selection, no pending update. -/
def initState : LoaderState :=
  { unbindPrev := none, selected := none, hasFixtureUpdate := false,
    listeners := [], nextId := 0 }

/-- The result of one entry point: the new module state, the effects emitted
in order, and whether execution completed without throwing (`ok = false`
models a propagated JS `TypeError` from reading a property of `undefined`). -/
structure StepResult where
  state : LoaderState
  effects : List Effect
  ok : Bool
deriving DecidableEq, Repr

/-- `loadFixture` from the source: creates a fresh context and mounts it, then
if `notifyParent` posts `fixtureLoad` with the serializable contents of the
loaded fixture.  Pure effect computation: `loadFixture` touches no module
state. -/
def loadFixture (fixture : Option Fixture) (notifyParent : Bool) : List Effect :=
  [Effect.mountContext fixture] ++
    (if notifyParent then
      [Effect.post (OutMessage.fixtureLoad (serializablePartOpt fixture))]
    else [])

/-- `onContextUpdate` from the source: fired by the context when the mounted
instance updates.  Sets `hasFixtureUpdate` and posts `fixtureUpdate` with the
serializable contents of the changed fixture part. -/
def onContextUpdate (s : LoaderState) (fixturePart : Fixture) :
    LoaderState × List Effect :=
  ({ s with hasFixtureUpdate := true },
   [Effect.post (OutMessage.fixtureUpdate (serializablePart fixturePart))])

/-- `onMessage` from the source, for the binding whose registry is `fixtures`
and whose `dismissRuntimeErrors` hook is present iff `hasDismiss`.

- `fixtureSelect`: guarded by `fixtures[component] && fixtures[component][fixture]`;
  on success stores the selection, clears `hasFixtureUpdate`, loads the fixture
  with notification, then invokes the dismissal hook; on failure only logs.
- `fixtureEdit`: with no selection only logs; otherwise sets
  `hasFixtureUpdate`, then reads `fixtures[component][fixture]` unguarded: a
  missing component throws (`ok := false` after the flag was already set); a
  missing fixture name hands `undefined` to `applyFixturePart`, whose splitter
  call on `undefined` is outside the splitter interface and is modelled as a
  throw as well; otherwise loads the merged fixture without notification.
- any other message type falls through with no effect. -/
def onMessage (fixtures : Fixtures) (hasDismiss : Bool) (s : LoaderState) :
    InMessage → StepResult
  | .fixtureSelect component fixture =>
    match objGet fixtures component with
    | some componentFixtures =>
      match objGet componentFixtures fixture with
      | some selectedFixture =>
        { state := { s with selected := some (component, fixture),
                            hasFixtureUpdate := false },
          effects := loadFixture (some selectedFixture) true ++
            (if hasDismiss then [Effect.dismissErrors] else []),
          ok := true }
      | none =>
        { state := s,
          effects := [Effect.logError "[Cosmos] Missing fixture"],
          ok := true }
    | none =>
      { state := s,
        effects := [Effect.logError "[Cosmos] Missing fixture"],
        ok := true }
  | .fixtureEdit fixtureBody =>
    match s.selected with
    | none =>
      { state := s,
        effects := [Effect.logError "[Cosmos] No selected fixture to edit"],
        ok := true }
    | some sel =>
      let s1 := { s with hasFixtureUpdate := true }
      match objGet fixtures sel.1 with
      | none => { state := s1, effects := [], ok := false }
      | some componentFixtures =>
        match objGet componentFixtures sel.2 with
        | some selectedFixture =>
          { state := s1,
            effects := loadFixture
              (some (applyFixturePart selectedFixture fixtureBody)) false,
            ok := true }
        | none => { state := s1, effects := [], ok := false }
  | .other => { state := s, effects := [], ok := true }

/-- `connectLoader` from the source, with the binding closures resolved: reads
`isFirstCall` from `unbindPrev`, runs the previous `unbind` if any (removing
the previous listener and clearing `unbindPrev`), stores its own `unbind`,
registers its own `onMessage` listener, posts `loaderReady` on a first call
and `fixtureListUpdate` otherwise, and on a rebind with a selection and no
pending update reloads `fixtures[component][fixture]` with notification — the
component lookup unguarded (a missing component throws, `ok := false`), the
fixture lookup yielding `undefined` (`none`) when the name is absent.

The state mutations (`unbindPrev`, `listeners`, `nextId`) are the same on
every control path, so they are factored out into `s2`. -/
def connectLoader (s : LoaderState) (fixtures : Fixtures) (_hasDismiss : Bool) :
    StepResult :=
  let isFirstCall := s.unbindPrev.isNone
  let unbindEffects : List Effect :=
    match s.unbindPrev with
    | some prevId => [Effect.removeListener prevId]
    | none => []
  let listeners0 :=
    match s.unbindPrev with
    | some prevId => s.listeners.filter (fun i => i != prevId)
    | none => s.listeners
  let newId := s.nextId
  let s2 : LoaderState :=
    { s with unbindPrev := some newId, nextId := s.nextId + 1,
             listeners := listeners0 ++ [newId] }
  let bindEffects := unbindEffects ++ [Effect.addListener newId]
  let tail : List Effect × Bool :=
    if isFirstCall then
      ([Effect.post (OutMessage.loaderReady (extractFixtureNames fixtures))], true)
    else
      let announce :=
        [Effect.post (OutMessage.fixtureListUpdate (extractFixtureNames fixtures))]
      match s.selected with
      | some sel =>
        if s.hasFixtureUpdate then (announce, true)
        else
          match objGet fixtures sel.1 with
          | none => (announce, false)
          | some componentFixtures =>
            (announce ++ loadFixture (objGet componentFixtures sel.2) true, true)
      | none => (announce, true)
  { state := s2, effects := bindEffects ++ tail.1, ok := tail.2 }

/-- The `destroy` closure returned by `connectLoader`.  It reads the
module-level `unbindPrev`, not the binding that created it, so a single
state-to-state function models the closure returned by every call: if a
binding is live it runs the current `unbind` (removing the currently
registered listener and clearing `unbindPrev`) and resets `selected` and
`hasFixtureUpdate`; otherwise it is a no-op. -/
def destroy (s : LoaderState) : LoaderState × List Effect :=
  match s.unbindPrev with
  | some id =>
    ({ s with unbindPrev := none, selected := none, hasFixtureUpdate := false,
              listeners := s.listeners.filter (fun i => i != id) },
     [Effect.removeListener id])
  | none => (s, [])

/-- A sequence of `connectLoader` calls, threading the state and
concatenating the effects; `ok` is the conjunction of each step. -/
def bindMany (s : LoaderState) : List (Fixtures × Bool) → StepResult
  | [] => { state := s, effects := [], ok := true }
  | a :: rest =>
    let r := connectLoader s a.1 a.2
    let r2 := bindMany r.state rest
    { state := r2.state, effects := r.effects ++ r2.effects, ok := r.ok && r2.ok }

/-- Number of context mounts among the effects. -/
def mountCount (effects : List Effect) : Nat :=
  (effects.filter Effect.isMount).length

/-- Number of listener removals among the effects. -/
def removeCount (effects : List Effect) : Nat :=
  (effects.filter Effect.isRemoveListener).length

/-- Number of `fixtureLoad` messages among the effects. -/
def fixtureLoadCount (effects : List Effect) : Nat :=
  (effects.filter Effect.isFixtureLoad).length

/-- Number of `loaderReady` messages among the effects. -/
def loaderReadyCount (effects : List Effect) : Nat :=
  (effects.filter Effect.isLoaderReady).length

/-- Number of `fixtureListUpdate` messages among the effects. -/
def listUpdateCount (effects : List Effect) : Nat :=
  (effects.filter Effect.isFixtureListUpdate).length

/-- First-defined-wins choice on options, the shape of a chain of JS
assignments read back through property lookup. -/
def optOr (a b : Option α) : Option α :=
  match a with
  | some v => some v
  | none => b

@[simp]
theorem optOr_some (v : α) (b : Option α) : optOr (some v) b = some v := rfl

@[simp]
theorem optOr_none (b : Option α) : optOr none b = b := rfl

/-! ### Lemmas on the JS object embedding -/

@[simp]
theorem objGet_nil (k : String) : objGet ([] : Obj α) k = none := rfl

theorem objGet_cons (k0 : String) (v0 : α) (o : Obj α) (k : String) :
    objGet ((k0, v0) :: o) k = if k0 = k then some v0 else objGet o k := by
  by_cases h : k0 = k
  · subst h
    simp [objGet, List.find?_cons]
  · have hb : ((k0, v0).1 == k) = false := by simp [h]
    simp [objGet, List.find?_cons, hb, h]

@[simp]
theorem objKeys_nil : objKeys ([] : Obj α) = [] := rfl

@[simp]
theorem objKeys_cons (a : String × α) (o : Obj α) :
    objKeys (a :: o) = a.1 :: objKeys o := rfl

theorem objGet_eq_none_of_not_mem (o : Obj α) (k : String)
    (h : k ∉ objKeys o) : objGet o k = none := by
  induction o with
  | nil => rfl
  | cons a t ih =>
    rcases a with ⟨k0, v0⟩
    rw [objGet_cons]
    rw [objKeys_cons] at h
    simp only [List.mem_cons] at h
    push_neg at h
    rw [if_neg (fun hk => h.1 hk.symm)]
    exact ih h.2

theorem objGet_isSome_of_any (o : Obj α) (k : String)
    (h : o.any (fun p => p.1 == k) = true) : (objGet o k).isSome := by
  induction o with
  | nil => simp at h
  | cons a t ih =>
    rcases a with ⟨k0, v0⟩
    rw [objGet_cons]
    by_cases hk : k0 = k
    · simp [hk]
    · rw [if_neg hk]
      simp only [List.any_cons, Bool.or_eq_true, beq_iff_eq] at h
      exact ih (by simpa [hk] using h)

theorem any_of_mem_objKeys (o : Obj α) (k : String) (h : k ∈ objKeys o) :
    o.any (fun p => p.1 == k) = true := by
  rw [List.any_eq_true]
  induction o with
  | nil => simp at h
  | cons a t ih =>
    rw [objKeys_cons, List.mem_cons] at h
    rcases h with h1 | h2
    · exact ⟨a, List.mem_cons_self a t, by simp [h1]⟩
    · obtain ⟨p, hp, hpk⟩ := ih h2
      exact ⟨p, List.mem_cons_of_mem a hp, hpk⟩

theorem objGet_eq_none_of_not_any (o : Obj α) (k : String)
    (h : ¬ o.any (fun p => p.1 == k) = true) : objGet o k = none :=
  objGet_eq_none_of_not_mem o k (fun hmem => h (any_of_mem_objKeys o k hmem))

theorem objGet_map_replace_ne (o : Obj α) (k : String) (v : α) (k' : String)
    (h : k' ≠ k) :
    objGet (o.map (fun p => if p.1 == k then (k, v) else p)) k' = objGet o k' := by
  induction o with
  | nil => rfl
  | cons a t ih =>
    rcases a with ⟨k0, v0⟩
    rw [List.map_cons]
    by_cases hk : k0 = k
    · have hb : ((k0, v0).1 == k) = true := by simp [hk]
      rw [if_pos hb, objGet_cons, objGet_cons,
        if_neg (fun hh => h hh.symm), if_neg (fun hh : k0 = k' => h (hk ▸ hh).symm), ih]
    · have hb : ¬ ((k0, v0).1 == k) = true := by simp [hk]
      rw [if_neg hb, objGet_cons, objGet_cons, ih]

theorem objGet_map_replace_self (o : Obj α) (k : String) (v : α)
    (h : o.any (fun p => p.1 == k) = true) :
    objGet (o.map (fun p => if p.1 == k then (k, v) else p)) k = some v := by
  induction o with
  | nil => simp at h
  | cons a t ih =>
    rcases a with ⟨k0, v0⟩
    rw [List.map_cons]
    by_cases hk : k0 = k
    · have hb : ((k0, v0).1 == k) = true := by simp [hk]
      rw [if_pos hb, objGet_cons, if_pos rfl]
    · have hb : ¬ ((k0, v0).1 == k) = true := by simp [hk]
      rw [if_neg hb, objGet_cons, if_neg hk]
      simp only [List.any_cons, Bool.or_eq_true, beq_iff_eq] at h
      exact ih (by simpa [hk] using h)

theorem objGet_append (o l : Obj α) (k : String) :
    objGet (o ++ l) k = optOr (objGet o k) (objGet l k) := by
  induction o with
  | nil => simp [optOr_none]
  | cons a t ih =>
    rcases a with ⟨k0, v0⟩
    rw [List.cons_append, objGet_cons, objGet_cons]
    by_cases hk : k0 = k
    · rw [if_pos hk, if_pos hk]; rfl
    · rw [if_neg hk, if_neg hk, ih]

theorem objGet_objSet (o : Obj α) (k : String) (v : α) (k' : String) :
    objGet (objSet o k v) k' = if k = k' then some v else objGet o k' := by
  unfold objSet
  by_cases hany : o.any (fun p => p.1 == k) = true
  · rw [if_pos hany]
    by_cases hk : k = k'
    · subst hk
      rw [if_pos rfl, objGet_map_replace_self o k v hany]
    · rw [if_neg hk, objGet_map_replace_ne o k v k' (fun hh => hk hh.symm)]
  · rw [if_neg hany, objGet_append]
    have hnone : objGet o k = none := objGet_eq_none_of_not_any o k hany
    by_cases hk : k = k'
    · subst hk
      rw [if_pos rfl, hnone, optOr_none, objGet_cons, if_pos rfl]
    · rw [if_neg hk, objGet_cons, if_neg hk, objGet_nil]
      cases objGet o k' <;> rfl

@[simp]
theorem objAssign_nil (dst : Obj α) : objAssign dst [] = dst := rfl

@[simp]
theorem objAssign_cons (dst : Obj α) (a : String × α) (src : Obj α) :
    objAssign dst (a :: src) = objAssign (objSet dst a.1 a.2) src := rfl

theorem objKeys_objSet_of_any (o : Obj α) (k : String) (v : α)
    (h : o.any (fun p => p.1 == k) = true) :
    objKeys (objSet o k v) = objKeys o := by
  unfold objSet
  rw [if_pos h]
  unfold objKeys
  rw [List.map_map]
  apply List.map_congr_left
  intro p _
  by_cases hk : p.1 = k
  · simp [hk]
  · simp [hk]

theorem objKeys_objSet_of_not_any (o : Obj α) (k : String) (v : α)
    (h : ¬ o.any (fun p => p.1 == k) = true) :
    objKeys (objSet o k v) = objKeys o ++ [k] := by
  unfold objSet
  rw [if_neg h]
  unfold objKeys
  simp

theorem nodup_objKeys_objSet (o : Obj α) (k : String) (v : α)
    (h : (objKeys o).Nodup) : (objKeys (objSet o k v)).Nodup := by
  by_cases hany : o.any (fun p => p.1 == k) = true
  · rwa [objKeys_objSet_of_any o k v hany]
  · rw [objKeys_objSet_of_not_any o k v hany, List.nodup_append]
    refine ⟨h, List.nodup_singleton k, ?_⟩
    intro x hx hx'
    rw [List.mem_singleton] at hx'
    subst hx'
    exact hany (any_of_mem_objKeys o x hx)

theorem nodup_objKeys_objAssign (dst src : Obj α)
    (h : (objKeys dst).Nodup) : (objKeys (objAssign dst src)).Nodup := by
  induction src generalizing dst with
  | nil => exact h
  | cons a t ih => exact ih _ (nodup_objKeys_objSet dst a.1 a.2 h)

theorem objGet_objAssign (dst src : Obj α) (k : String)
    (h : (objKeys src).Nodup) :
    objGet (objAssign dst src) k = optOr (objGet src k) (objGet dst k) := by
  induction src generalizing dst with
  | nil => simp
  | cons a t ih =>
    rcases a with ⟨k0, v0⟩
    rw [objKeys_cons, List.nodup_cons] at h
    rw [objAssign_cons, ih _ h.2, objGet_cons]
    by_cases hk : k0 = k
    · subst hk
      rw [if_pos rfl, objGet_eq_none_of_not_mem t k0 h.1, optOr_none,
        objGet_objSet, if_pos rfl, optOr_some]
    · rw [if_neg hk, objGet_objSet, if_neg hk]

theorem objGet_map_value (o : Obj β) (g : β → α) (k : String) :
    objGet (o.map (fun p => (p.1, g p.2))) k = (objGet o k).map g := by
  induction o with
  | nil => rfl
  | cons a t ih =>
    rcases a with ⟨k0, v0⟩
    rw [List.map_cons, objGet_cons, objGet_cons]
    by_cases hk : k0 = k
    · rw [if_pos hk, if_pos hk]
      rfl
    · rw [if_neg hk, if_neg hk, ih]

theorem objKeys_map_value (o : Obj β) (g : β → α) :
    objKeys (o.map (fun p => (p.1, g p.2))) = objKeys o := by
  unfold objKeys
  rw [List.map_map]
  rfl

theorem nodup_objKeys_filter (o : Obj α) (q : String × α → Bool)
    (h : (objKeys o).Nodup) : (objKeys (o.filter q)).Nodup := by
  unfold objKeys at h ⊢
  exact List.Nodup.sublist (List.Sublist.map _ (List.filter_sublist o)) h

theorem splitUnserializableParts_fst (f : Fixture) :
    (splitUnserializableParts f).1 = f.filter (fun p => p.2.isSer) := rfl

theorem splitUnserializableParts_snd (f : Fixture) :
    (splitUnserializableParts f).2 = f.filter (fun p => !p.2.isSer) := rfl

/-- The merge law of `applyFixturePart`, read back through property lookup:
the edit body wins, then the serializable part of the current fixture, then
its unserializable part. -/
theorem applyFixturePart_objGet (fixt : Fixture) (body : Obj Nat)
    (hf : (objKeys fixt).Nodup) (hb : (objKeys body).Nodup) (k : String) :
    objGet (applyFixturePart fixt body) k =
      optOr ((objGet body k).map FixtureValue.ser)
        (optOr (objGet (splitUnserializableParts fixt).1 k)
          (objGet (splitUnserializableParts fixt).2 k)) := by
  have hser : (objKeys (splitUnserializableParts fixt).1).Nodup := by
    rw [splitUnserializableParts_fst]
    exact nodup_objKeys_filter fixt _ hf
  have hunser : (objKeys (splitUnserializableParts fixt).2).Nodup := by
    rw [splitUnserializableParts_snd]
    exact nodup_objKeys_filter fixt _ hf
  have hbodymap :
      (objKeys (body.map (fun p => (p.1, FixtureValue.ser p.2)))).Nodup := by
    rwa [objKeys_map_value]
  unfold applyFixturePart
  rw [objGet_objAssign _ _ _
      (nodup_objKeys_objAssign _ _ hser),
    objGet_objAssign _ _ _ hbodymap,
    objGet_objAssign _ _ _ hunser,
    objGet_map_value, objGet_nil]
  cases objGet body k <;>
    cases objGet (splitUnserializableParts fixt).1 k <;>
      cases objGet (splitUnserializableParts fixt).2 k <;> rfl

/-- `extractFixtureNames` read back through property lookup: the fixture
names of each component, with no fixture bodies. -/
theorem objGet_extractFixtureNames (fx : Fixtures) (h : (objKeys fx).Nodup)
    (c : String) :
    objGet (extractFixtureNames fx) c = (objGet fx c).map objKeys := by
  have hfold : extractFixtureNames fx =
      objAssign [] (fx.map (fun p => (p.1, objKeys p.2))) := by
    unfold extractFixtureNames objAssign
    rw [List.foldl_map]
  rw [hfold, objGet_objAssign _ _ _ (by rwa [objKeys_map_value]),
    objGet_map_value, objGet_nil]
  cases objGet fx c <;> rfl

/-! ### Characterization of `connectLoader` -/

/-- The invariant tying the `window` listener registrations to the module
state: the registered listeners are exactly the one held by `unbindPrev`. -/
def ListenerInvariant (s : LoaderState) : Prop :=
  s.listeners = s.unbindPrev.toList

theorem connectLoader_state (s : LoaderState) (fx : Fixtures) (d : Bool) :
    (connectLoader s fx d).state =
      { s with unbindPrev := some s.nextId, nextId := s.nextId + 1,
               listeners :=
                 (match s.unbindPrev with
                  | some prevId => s.listeners.filter (fun i => i != prevId)
                  | none => s.listeners) ++ [s.nextId] } := rfl

theorem connectLoader_selected (s : LoaderState) (fx : Fixtures) (d : Bool) :
    (connectLoader s fx d).state.selected = s.selected := rfl

theorem connectLoader_hasFixtureUpdate (s : LoaderState) (fx : Fixtures)
    (d : Bool) :
    (connectLoader s fx d).state.hasFixtureUpdate = s.hasFixtureUpdate := rfl

theorem connectLoader_unbindPrev (s : LoaderState) (fx : Fixtures) (d : Bool) :
    (connectLoader s fx d).state.unbindPrev = some s.nextId := rfl

theorem connectLoader_nextId (s : LoaderState) (fx : Fixtures) (d : Bool) :
    (connectLoader s fx d).state.nextId = s.nextId + 1 := rfl

theorem connectLoader_listeners (s : LoaderState) (fx : Fixtures) (d : Bool)
    (h : ListenerInvariant s) :
    (connectLoader s fx d).state.listeners = [s.nextId] := by
  rw [connectLoader_state]
  rcases hp : s.unbindPrev with _ | pid <;>
    rw [h, hp] <;> simp [Option.toList]

theorem connectLoader_invariant (s : LoaderState) (fx : Fixtures) (d : Bool)
    (h : ListenerInvariant s) :
    ListenerInvariant (connectLoader s fx d).state := by
  unfold ListenerInvariant
  rw [connectLoader_listeners s fx d h, connectLoader_unbindPrev]
  rfl

theorem connectLoader_first (s : LoaderState) (fx : Fixtures) (d : Bool)
    (hp : s.unbindPrev = none) :
    (connectLoader s fx d).effects =
      [Effect.addListener s.nextId,
       Effect.post (OutMessage.loaderReady (extractFixtureNames fx))] ∧
    (connectLoader s fx d).ok = true := by
  constructor <;> simp [connectLoader, hp]

theorem connectLoader_rebind_noSelection (s : LoaderState) (fx : Fixtures)
    (d : Bool) (pid : Nat) (hp : s.unbindPrev = some pid)
    (hsel : s.selected = none) :
    (connectLoader s fx d).effects =
      [Effect.removeListener pid, Effect.addListener s.nextId,
       Effect.post (OutMessage.fixtureListUpdate (extractFixtureNames fx))] ∧
    (connectLoader s fx d).ok = true := by
  constructor <;> simp [connectLoader, hp, hsel]

theorem connectLoader_rebind_pending (s : LoaderState) (fx : Fixtures)
    (d : Bool) (pid : Nat) (sel : String × String)
    (hp : s.unbindPrev = some pid) (hsel : s.selected = some sel)
    (hupd : s.hasFixtureUpdate = true) :
    (connectLoader s fx d).effects =
      [Effect.removeListener pid, Effect.addListener s.nextId,
       Effect.post (OutMessage.fixtureListUpdate (extractFixtureNames fx))] ∧
    (connectLoader s fx d).ok = true := by
  constructor <;> simp [connectLoader, hp, hsel, hupd]

theorem connectLoader_rebind_missingComponent (s : LoaderState)
    (fx : Fixtures) (d : Bool) (pid : Nat) (sel : String × String)
    (hp : s.unbindPrev = some pid) (hsel : s.selected = some sel)
    (hupd : s.hasFixtureUpdate = false) (hc : objGet fx sel.1 = none) :
    (connectLoader s fx d).effects =
      [Effect.removeListener pid, Effect.addListener s.nextId,
       Effect.post (OutMessage.fixtureListUpdate (extractFixtureNames fx))] ∧
    (connectLoader s fx d).ok = false := by
  constructor <;> simp [connectLoader, hp, hsel, hupd, hc]

theorem connectLoader_rebind_resync (s : LoaderState) (fx : Fixtures)
    (d : Bool) (pid : Nat) (sel : String × String) (m : Obj Fixture)
    (hp : s.unbindPrev = some pid) (hsel : s.selected = some sel)
    (hupd : s.hasFixtureUpdate = false) (hc : objGet fx sel.1 = some m) :
    (connectLoader s fx d).effects =
      [Effect.removeListener pid, Effect.addListener s.nextId,
       Effect.post (OutMessage.fixtureListUpdate (extractFixtureNames fx))] ++
      loadFixture (objGet m sel.2) true ∧
    (connectLoader s fx d).ok = true := by
  constructor <;> simp [connectLoader, hp, hsel, hupd, hc]

theorem removeCount_append (a b : List Effect) :
    removeCount (a ++ b) = removeCount a + removeCount b := by
  simp [removeCount, List.filter_append]

theorem removeCount_connectLoader_first (s : LoaderState) (fx : Fixtures)
    (d : Bool) (hp : s.unbindPrev = none) :
    removeCount (connectLoader s fx d).effects = 0 := by
  rw [(connectLoader_first s fx d hp).1]
  simp [removeCount, Effect.isRemoveListener]

theorem removeCount_connectLoader_rebind (s : LoaderState) (fx : Fixtures)
    (d : Bool) (pid : Nat) (hp : s.unbindPrev = some pid) :
    removeCount (connectLoader s fx d).effects = 1 := by
  rcases hsel : s.selected with _ | sel
  · rw [(connectLoader_rebind_noSelection s fx d pid hp hsel).1]
    simp [removeCount, Effect.isRemoveListener]
  · cases hupd : s.hasFixtureUpdate
    · rcases hc : objGet fx sel.1 with _ | m
      · rw [(connectLoader_rebind_missingComponent s fx d pid sel hp hsel hupd hc).1]
        simp [removeCount, Effect.isRemoveListener]
      · rw [(connectLoader_rebind_resync s fx d pid sel m hp hsel hupd hc).1]
        simp [removeCount, Effect.isRemoveListener, loadFixture,
          List.filter_append]
    · rw [(connectLoader_rebind_pending s fx d pid sel hp hsel hupd).1]
      simp [removeCount, Effect.isRemoveListener]

theorem bindMany_cons (s : LoaderState) (a : Fixtures × Bool)
    (t : List (Fixtures × Bool)) :
    bindMany s (a :: t) =
      { state := (bindMany (connectLoader s a.1 a.2).state t).state,
        effects := (connectLoader s a.1 a.2).effects ++
          (bindMany (connectLoader s a.1 a.2).state t).effects,
        ok := (connectLoader s a.1 a.2).ok &&
          (bindMany (connectLoader s a.1 a.2).state t).ok } := rfl

/-- Invariant carried along a sequence of rebinds on a live binding: the
listener set stays a singleton and each further call removes exactly one
listener. -/
theorem bindMany_live (args : List (Fixtures × Bool)) :
    ∀ s : LoaderState, ∀ pid : Nat, ListenerInvariant s →
      s.unbindPrev = some pid →
      (bindMany s args).state.listeners.length = 1 ∧
      ListenerInvariant (bindMany s args).state ∧
      (bindMany s args).state.unbindPrev.isSome ∧
      removeCount (bindMany s args).effects = args.length := by
  induction args with
  | nil =>
    intro s pid hinv hp
    refine ⟨?_, hinv, ?_, rfl⟩
    · show s.listeners.length = 1
      rw [hinv, hp]
      rfl
    · show s.unbindPrev.isSome
      rw [hp]
      rfl
  | cons a t ih =>
    intro s pid hinv hp
    obtain ⟨h1, h2, h3, h4⟩ := ih (connectLoader s a.1 a.2).state s.nextId
      (connectLoader_invariant s a.1 a.2 hinv) (connectLoader_unbindPrev s a.1 a.2)
    rw [bindMany_cons]
    refine ⟨h1, h2, h3, ?_⟩
    show removeCount ((connectLoader s a.1 a.2).effects ++
      (bindMany (connectLoader s a.1 a.2).state t).effects) = (a :: t).length
    rw [removeCount_append, h4,
      removeCount_connectLoader_rebind s a.1 a.2 pid hp, List.length_cons,
      Nat.add_comm]

theorem destroy_of_some (s : LoaderState) (id : Nat)
    (hp : s.unbindPrev = some id) :
    destroy s =
      ({ s with unbindPrev := none, selected := none,
                hasFixtureUpdate := false,
                listeners := s.listeners.filter (fun i => i != id) },
       [Effect.removeListener id]) := by
  simp [destroy, hp]

theorem destroy_of_none (s : LoaderState) (hp : s.unbindPrev = none) :
    destroy s = (s, []) := by
  simp [destroy, hp]

/-! ### Concrete example data used by the witnesses -/

def exampleFixture : Fixture :=
  [("label", FixtureValue.ser 1), ("onClick", FixtureValue.unser 7)]

def exampleFixtures : Fixtures :=
  [("Button", [("default", exampleFixture)])]

/-- A registry without the `Button` component, as after hot reload. -/
def exampleFixturesOther : Fixtures :=
  [("Input", [("empty", [("value", FixtureValue.ser 3)])])]

/-! ### Claims -/

/-- Claim C1: for any sequence of N calls to `connectLoader`, at most one
message listener is active at any time: after all N calls exactly one
listener is registered and the other N-1 have been unregistered. -/
theorem single_active_listener (args : List (Fixtures × Bool))
    (h : args ≠ []) :
    (bindMany initState args).state.listeners.length = 1 ∧
    removeCount (bindMany initState args).effects = args.length - 1 := by
  cases args with
  | nil => exact absurd rfl h
  | cons a t =>
    obtain ⟨h1, _, _, h4⟩ := bindMany_live t
      (connectLoader initState a.1 a.2).state initState.nextId
      (connectLoader_invariant initState a.1 a.2 rfl)
      (connectLoader_unbindPrev initState a.1 a.2)
    rw [bindMany_cons]
    refine ⟨h1, ?_⟩
    show removeCount ((connectLoader initState a.1 a.2).effects ++
      (bindMany (connectLoader initState a.1 a.2).state t).effects) =
      (a :: t).length - 1
    rw [removeCount_append, h4,
      removeCount_connectLoader_first initState a.1 a.2 rfl, List.length_cons,
      Nat.zero_add, Nat.add_sub_cancel]

/-- Witness for C1 at a concrete two-call sequence. -/
theorem single_active_listener_witness :
    ([(exampleFixtures, false), (exampleFixtures, true)] :
        List (Fixtures × Bool)) ≠ [] ∧
    (bindMany initState
        [(exampleFixtures, false), (exampleFixtures, true)]).state.listeners.length = 1 ∧
    removeCount (bindMany initState
        [(exampleFixtures, false), (exampleFixtures, true)]).effects = 2 - 1 := by
  have h := single_active_listener
    [(exampleFixtures, false), (exampleFixtures, true)] (List.cons_ne_nil _ _)
  exact ⟨List.cons_ne_nil _ _, h.1, h.2⟩

/-- A live binding (listener id 0) with `Button:default` selected and no
pending update; the state reached by binding and then selecting. -/
def exampleLiveState : LoaderState :=
  { unbindPrev := some 0, selected := some ("Button", "default"),
    hasFixtureUpdate := false, listeners := [0], nextId := 1 }

/-- Claim C2: on a non-first bind, if a Selection exists and
PendingUpdateFlag is false, exactly one remount of the registry current
definition for that Selection is performed; if PendingUpdateFlag is true or
no Selection exists, the rebind performs zero remounts. -/
theorem rebind_resync_mounts (s : LoaderState) (fx : Fixtures) (d : Bool)
    (pid : Nat) (hp : s.unbindPrev = some pid) :
    (∀ c f m fixt, s.selected = some (c, f) → s.hasFixtureUpdate = false →
      objGet fx c = some m → objGet m f = some fixt →
      mountCount (connectLoader s fx d).effects = 1 ∧
      Effect.mountContext (some fixt) ∈ (connectLoader s fx d).effects) ∧
    (s.hasFixtureUpdate = true →
      mountCount (connectLoader s fx d).effects = 0) ∧
    (s.selected = none → mountCount (connectLoader s fx d).effects = 0) := by
  refine ⟨?_, ?_, ?_⟩
  · intro c f m fixt hsel hupd hc hf
    rw [(connectLoader_rebind_resync s fx d pid (c, f) m hp hsel hupd hc).1]
    have hf' : objGet m (c, f).2 = some fixt := hf
    rw [hf']
    constructor
    · simp [mountCount, Effect.isMount, loadFixture, List.filter_append]
    · simp [loadFixture]
  · intro hupd
    rcases hsel : s.selected with _ | sel
    · rw [(connectLoader_rebind_noSelection s fx d pid hp hsel).1]
      simp [mountCount, Effect.isMount]
    · rw [(connectLoader_rebind_pending s fx d pid sel hp hsel hupd).1]
      simp [mountCount, Effect.isMount]
  · intro hsel
    rw [(connectLoader_rebind_noSelection s fx d pid hp hsel).1]
    simp [mountCount, Effect.isMount]

/-- Witness for C2: one remount on rebind with a live selection. -/
theorem rebind_resync_mounts_witness :
    exampleLiveState.unbindPrev = some 0 ∧
    exampleLiveState.selected = some ("Button", "default") ∧
    exampleLiveState.hasFixtureUpdate = false ∧
    objGet exampleFixtures "Button" = some [("default", exampleFixture)] ∧
    objGet [("default", exampleFixture)] "default" = some exampleFixture ∧
    mountCount (connectLoader exampleLiveState exampleFixtures false).effects = 1 ∧
    Effect.mountContext (some exampleFixture) ∈
      (connectLoader exampleLiveState exampleFixtures false).effects := by
  have h := rebind_resync_mounts exampleLiveState exampleFixtures false 0 rfl
  have h2 := h.1 "Button" "default" [("default", exampleFixture)]
    exampleFixture rfl rfl (by decide) (by decide)
  exact ⟨rfl, rfl, rfl, by decide, by decide, h2.1, h2.2⟩

/-- Claim C3: a `fixtureSelect` whose component and fixture both exist sets
the Selection, clears PendingUpdateFlag, mounts the registry fixture fresh,
posts `fixtureLoad` with its serializable part, and, if the error-dismissal
hook was supplied, invokes it after the mount. -/
theorem fixtureSelect_success (fx : Fixtures) (d : Bool) (s : LoaderState)
    (c f : String) (m : Obj Fixture) (fixt : Fixture)
    (hm : objGet fx c = some m) (hf : objGet m f = some fixt) :
    (onMessage fx d s (InMessage.fixtureSelect c f)).state =
      { s with selected := some (c, f), hasFixtureUpdate := false } ∧
    (onMessage fx d s (InMessage.fixtureSelect c f)).effects =
      [Effect.mountContext (some fixt),
       Effect.post (OutMessage.fixtureLoad (serializablePart fixt))] ++
      (if d then [Effect.dismissErrors] else []) ∧
    (onMessage fx d s (InMessage.fixtureSelect c f)).ok = true := by
  refine ⟨?_, ?_, ?_⟩ <;>
    simp [onMessage, hm, hf, loadFixture, serializablePartOpt]

/-- Witness for C3 at the concrete `Button:default` registry entry, with the
dismissal hook supplied. -/
theorem fixtureSelect_success_witness :
    objGet exampleFixtures "Button" = some [("default", exampleFixture)] ∧
    objGet [("default", exampleFixture)] "default" = some exampleFixture ∧
    (onMessage exampleFixtures true initState
        (InMessage.fixtureSelect "Button" "default")).state =
      { initState with selected := some ("Button", "default"),
                       hasFixtureUpdate := false } ∧
    (onMessage exampleFixtures true initState
        (InMessage.fixtureSelect "Button" "default")).effects =
      [Effect.mountContext (some exampleFixture),
       Effect.post (OutMessage.fixtureLoad (serializablePart exampleFixture))] ++
      (if true then [Effect.dismissErrors] else []) ∧
    (onMessage exampleFixtures true initState
        (InMessage.fixtureSelect "Button" "default")).ok = true := by
  have h := fixtureSelect_success exampleFixtures true initState "Button"
    "default" [("default", exampleFixture)] exampleFixture (by decide) (by decide)
  exact ⟨by decide, by decide, h.1, h.2.1, h.2.2⟩

/-- Claim C4: a `fixtureEdit` with a live Selection sets PendingUpdateFlag,
performs exactly one remount with `applyFixturePart` of the registry fixture
and the edit body — the unserializable parts of the registered fixture
combined with its serializable parts overridden by the body — and posts no
`fixtureLoad`. -/
theorem fixtureEdit_merge_and_mount (fx : Fixtures) (d : Bool)
    (s : LoaderState) (c f : String) (m : Obj Fixture) (fixt : Fixture)
    (body : Obj Nat) (hsel : s.selected = some (c, f))
    (hm : objGet fx c = some m) (hf : objGet m f = some fixt)
    (hnf : (objKeys fixt).Nodup) (hnb : (objKeys body).Nodup) :
    (onMessage fx d s (InMessage.fixtureEdit body)).state =
      { s with hasFixtureUpdate := true } ∧
    (onMessage fx d s (InMessage.fixtureEdit body)).effects =
      [Effect.mountContext (some (applyFixturePart fixt body))] ∧
    fixtureLoadCount (onMessage fx d s (InMessage.fixtureEdit body)).effects = 0 ∧
    (∀ k, objGet (applyFixturePart fixt body) k =
      optOr ((objGet body k).map FixtureValue.ser)
        (optOr (objGet (splitUnserializableParts fixt).1 k)
          (objGet (splitUnserializableParts fixt).2 k))) ∧
    List.Perm
      (applyFixturePart
        [("a", FixtureValue.ser 1), ("b", FixtureValue.ser 2),
         ("fn", FixtureValue.unser 5)]
        [("b", 9)])
      [("a", FixtureValue.ser 1), ("b", FixtureValue.ser 9),
       ("fn", FixtureValue.unser 5)] := by
  refine ⟨?_, ?_, ?_, applyFixturePart_objGet fixt body hnf hnb, by decide⟩ <;>
    simp [onMessage, hsel, hm, hf, loadFixture, fixtureLoadCount,
      Effect.isFixtureLoad]

/-- Witness for C4: editing `label` of the selected `Button:default`. -/
theorem fixtureEdit_merge_and_mount_witness :
    exampleLiveState.selected = some ("Button", "default") ∧
    objGet exampleFixtures "Button" = some [("default", exampleFixture)] ∧
    objGet [("default", exampleFixture)] "default" = some exampleFixture ∧
    (objKeys exampleFixture).Nodup ∧
    (objKeys ([("label", 9)] : Obj Nat)).Nodup ∧
    (onMessage exampleFixtures false exampleLiveState
        (InMessage.fixtureEdit [("label", 9)])).state =
      { exampleLiveState with hasFixtureUpdate := true } ∧
    (onMessage exampleFixtures false exampleLiveState
        (InMessage.fixtureEdit [("label", 9)])).effects =
      [Effect.mountContext (some (applyFixturePart exampleFixture [("label", 9)]))] ∧
    fixtureLoadCount (onMessage exampleFixtures false exampleLiveState
        (InMessage.fixtureEdit [("label", 9)])).effects = 0 ∧
    objGet (applyFixturePart exampleFixture [("label", 9)]) "label" =
      some (FixtureValue.ser 9) := by
  have h := fixtureEdit_merge_and_mount exampleFixtures false exampleLiveState
    "Button" "default" [("default", exampleFixture)] exampleFixture
    [("label", 9)] rfl (by decide) (by decide) (by decide) (by decide)
  refine ⟨rfl, by decide, by decide, by decide, by decide, h.1, h.2.1,
    h.2.2.1, ?_⟩
  rw [h.2.2.2.1 "label"]
  decide

/-- Claim C5: the first bind (no prior active binding, including after
`destroy`) posts `loaderReady`; every subsequent bind posts
`fixtureListUpdate` instead and never `loaderReady` again until `destroy`
resets the binding state; the `fixtures` field of both is the registry
projected to component name to list of fixture names, with no bodies. -/
theorem bind_announcements (s : LoaderState) (fx : Fixtures) (d : Bool) :
    (s.unbindPrev = none →
      (connectLoader s fx d).effects =
        [Effect.addListener s.nextId,
         Effect.post (OutMessage.loaderReady (extractFixtureNames fx))]) ∧
    (∀ pid, s.unbindPrev = some pid →
      loaderReadyCount (connectLoader s fx d).effects = 0 ∧
      listUpdateCount (connectLoader s fx d).effects = 1 ∧
      Effect.post (OutMessage.fixtureListUpdate (extractFixtureNames fx)) ∈
        (connectLoader s fx d).effects) ∧
    (connectLoader s fx d).state.unbindPrev = some s.nextId ∧
    (∀ msg, (onMessage fx d s msg).state.unbindPrev = s.unbindPrev) ∧
    (destroy s).1.unbindPrev = none ∧
    ((objKeys fx).Nodup → ∀ c,
      objGet (extractFixtureNames fx) c = (objGet fx c).map objKeys) := by
  refine ⟨?_, ?_, connectLoader_unbindPrev s fx d, ?_, ?_,
    fun hn c => objGet_extractFixtureNames fx hn c⟩
  · intro hp
    exact (connectLoader_first s fx d hp).1
  · intro pid hp
    rcases hsel : s.selected with _ | sel
    · rw [(connectLoader_rebind_noSelection s fx d pid hp hsel).1]
      refine ⟨?_, ?_, ?_⟩ <;>
        simp [loaderReadyCount, listUpdateCount, Effect.isLoaderReady,
          Effect.isFixtureListUpdate]
    · cases hupd : s.hasFixtureUpdate
      · rcases hc : objGet fx sel.1 with _ | m
        · rw [(connectLoader_rebind_missingComponent s fx d pid sel hp hsel
            hupd hc).1]
          refine ⟨?_, ?_, ?_⟩ <;>
            simp [loaderReadyCount, listUpdateCount, Effect.isLoaderReady,
              Effect.isFixtureListUpdate]
        · rw [(connectLoader_rebind_resync s fx d pid sel m hp hsel hupd hc).1]
          refine ⟨?_, ?_, ?_⟩ <;>
            simp [loaderReadyCount, listUpdateCount, Effect.isLoaderReady,
              Effect.isFixtureListUpdate, loadFixture, List.filter_append]
      · rw [(connectLoader_rebind_pending s fx d pid sel hp hsel hupd).1]
        refine ⟨?_, ?_, ?_⟩ <;>
          simp [loaderReadyCount, listUpdateCount, Effect.isLoaderReady,
            Effect.isFixtureListUpdate]
  · intro msg
    cases msg with
    | fixtureSelect c f =>
      rcases hm : objGet fx c with _ | m
      · simp [onMessage, hm]
      · rcases hf : objGet m f with _ | fixt <;> simp [onMessage, hm, hf]
    | fixtureEdit body =>
      rcases hsel : s.selected with _ | sel
      · simp [onMessage, hsel]
      · rcases hm : objGet fx sel.1 with _ | m
        · simp [onMessage, hsel, hm]
        · rcases hf : objGet m sel.2 with _ | fixt <;>
            simp [onMessage, hsel, hm, hf]
    | other => rfl
  · rcases hp : s.unbindPrev with _ | id
    · rw [destroy_of_none s hp]
      exact hp
    · rw [destroy_of_some s id hp]

/-- Witness for C5: first bind from the initial state posts `loaderReady`, a
rebind from a live state posts `fixtureListUpdate` and no `loaderReady`, and
the announced names for the example registry are `Button -> [default]`. -/
theorem bind_announcements_witness :
    (connectLoader initState exampleFixtures false).effects =
      [Effect.addListener 0,
       Effect.post (OutMessage.loaderReady (extractFixtureNames exampleFixtures))] ∧
    loaderReadyCount (connectLoader exampleLiveState exampleFixtures false).effects = 0 ∧
    listUpdateCount (connectLoader exampleLiveState exampleFixtures false).effects = 1 ∧
    objGet (extractFixtureNames exampleFixtures) "Button" = some ["default"] := by
  have h1 := bind_announcements initState exampleFixtures false
  have h2 := bind_announcements exampleLiveState exampleFixtures false
  refine ⟨h1.1 rfl, (h2.2.1 0 rfl).1, (h2.2.1 0 rfl).2.1, ?_⟩
  rw [h1.2.2.2.2.2 (by decide) "Button"]
  decide

/-- Claim C6: every failure path is a no-op on state and sends no outbound
message: a `fixtureSelect` naming a component or fixture absent from the
registry only logs an error; a `fixtureEdit` with no active Selection only
logs an error; an unrecognized message type is silently ignored. -/
theorem failure_paths_noop (fx : Fixtures) (d : Bool) (s : LoaderState) :
    (∀ c f, objGet fx c = none →
      onMessage fx d s (InMessage.fixtureSelect c f) =
        { state := s, effects := [Effect.logError "[Cosmos] Missing fixture"],
          ok := true }) ∧
    (∀ c f m, objGet fx c = some m → objGet m f = none →
      onMessage fx d s (InMessage.fixtureSelect c f) =
        { state := s, effects := [Effect.logError "[Cosmos] Missing fixture"],
          ok := true }) ∧
    (∀ body, s.selected = none →
      onMessage fx d s (InMessage.fixtureEdit body) =
        { state := s,
          effects := [Effect.logError "[Cosmos] No selected fixture to edit"],
          ok := true }) ∧
    onMessage fx d s InMessage.other =
      { state := s, effects := [], ok := true } := by
  refine ⟨?_, ?_, ?_, rfl⟩
  · intro c f hm
    simp [onMessage, hm]
  · intro c f m hm hf
    simp [onMessage, hm, hf]
  · intro body hsel
    simp [onMessage, hsel]

/-- Witness for C6: an unknown component, an unknown fixture name, and an
edit without selection, each a logged no-op on the concrete registry. -/
theorem failure_paths_noop_witness :
    objGet exampleFixtures "Missing" = none ∧
    objGet [("default", exampleFixture)] "x" = none ∧
    onMessage exampleFixtures false initState
        (InMessage.fixtureSelect "Missing" "x") =
      { state := initState,
        effects := [Effect.logError "[Cosmos] Missing fixture"], ok := true } ∧
    onMessage exampleFixtures false initState
        (InMessage.fixtureSelect "Button" "x") =
      { state := initState,
        effects := [Effect.logError "[Cosmos] Missing fixture"], ok := true } ∧
    onMessage exampleFixtures false initState
        (InMessage.fixtureEdit [("label", 9)]) =
      { state := initState,
        effects := [Effect.logError "[Cosmos] No selected fixture to edit"],
        ok := true } ∧
    onMessage exampleFixtures false initState InMessage.other =
      { state := initState, effects := [], ok := true } := by
  have h := failure_paths_noop exampleFixtures false initState
  exact ⟨by decide, by decide, h.1 "Missing" "x" (by decide),
    h.2.1 "Button" "x" [("default", exampleFixture)] (by decide) (by decide),
    h.2.2.1 [("label", 9)] rfl, h.2.2.2⟩

/-- Counterexample to C7: Selection and PendingUpdateFlag are not
re-initialized fresh on each new Binding.  After binding, selecting
`Button:default` and rebinding — the rebind establishes a new Binding — the
Selection is still `Button:default`; after an additional edit the rebound
state still has PendingUpdateFlag set. -/
theorem binding_scoped_state_cex :
    (connectLoader (onMessage exampleFixtures false
        (connectLoader initState exampleFixtures false).state
        (InMessage.fixtureSelect "Button" "default")).state
      exampleFixtures false).state.selected = some ("Button", "default") ∧
    (connectLoader (onMessage exampleFixtures false
        (onMessage exampleFixtures false
          (connectLoader initState exampleFixtures false).state
          (InMessage.fixtureSelect "Button" "default")).state
        (InMessage.fixtureEdit [("label", 9)])).state
      exampleFixtures false).state.hasFixtureUpdate = true := by
  constructor <;> decide

/-- Claim C7 as amended: Selection and PendingUpdateFlag are reset to
empty/false when `destroy` is invoked on a live binding, `destroy` is
idempotent, and the two are NOT re-initialized on a rebind: a new Binding
established by `connectLoader` preserves both (which the rebind resync
relies on); they start out empty/false only because the module initializes
them so and `destroy` resets them. -/
theorem binding_scoped_state_amended (s : LoaderState) (fx : Fixtures)
    (d : Bool) :
    (∀ id, s.unbindPrev = some id →
      (destroy s).1.selected = none ∧
      (destroy s).1.hasFixtureUpdate = false ∧
      (destroy s).1.unbindPrev = none) ∧
    destroy (destroy s).1 = ((destroy s).1, []) ∧
    (connectLoader s fx d).state.selected = s.selected ∧
    (connectLoader s fx d).state.hasFixtureUpdate = s.hasFixtureUpdate ∧
    initState.selected = none ∧ initState.hasFixtureUpdate = false := by
  refine ⟨?_, ?_, rfl, rfl, rfl, rfl⟩
  · intro id hp
    rw [destroy_of_some s id hp]
    exact ⟨rfl, rfl, rfl⟩
  · rcases hp : s.unbindPrev with _ | id
    · rw [destroy_of_none s hp, destroy_of_none s hp]
    · rw [destroy_of_some s id hp]
      exact destroy_of_none _ rfl

/-- Witness for the amended C7 at the live example state. -/
theorem binding_scoped_state_amended_witness :
    exampleLiveState.unbindPrev = some 0 ∧
    (destroy exampleLiveState).1.selected = none ∧
    (destroy exampleLiveState).1.hasFixtureUpdate = false ∧
    destroy (destroy exampleLiveState).1 = ((destroy exampleLiveState).1, []) ∧
    (connectLoader exampleLiveState exampleFixtures false).state.selected =
      exampleLiveState.selected := by
  have h := binding_scoped_state_amended exampleLiveState exampleFixtures false
  exact ⟨rfl, (h.1 0 rfl).1, (h.1 0 rfl).2.1, h.2.1, h.2.2.1⟩

/-- Claim C8: every invocation of the context `onUpdate` callback sets
PendingUpdateFlag, posts `fixtureUpdate` with the serializable part of the
changed fixture part, and leaves Selection unchanged. -/
theorem contextUpdate_flag_and_notify (s : LoaderState)
    (fixturePart : Fixture) :
    (onContextUpdate s fixturePart).1 = { s with hasFixtureUpdate := true } ∧
    (onContextUpdate s fixturePart).1.selected = s.selected ∧
    (onContextUpdate s fixturePart).2 =
      [Effect.post (OutMessage.fixtureUpdate (serializablePart fixturePart))] :=
  ⟨rfl, rfl, rfl⟩

/-- A registry that still has the `Button` component but no longer a
`default` fixture, as after a hot reload that renamed the fixture. -/
def exampleFixturesRenamed : Fixtures :=
  [("Button", [("primary", [("label", FixtureValue.ser 2)])])]

/-- Claim C9: neither the rebind resync path nor the `fixtureEdit` path
checks that the selected component/fixture still exists in the current
registry: with a stale Selection, a rebind whose registry lost the component
throws (and logs nothing), a rebind whose registry lost only the fixture
name mounts an `undefined` fixture (and logs nothing), and an edit whose
registry lost the component throws after mutating the flag (and logs
nothing) — none of them logs and leaves the state unchanged the way
`fixtureSelect` failure does. -/
theorem unguarded_stale_selection (s : LoaderState) (fx : Fixtures) (d : Bool)
    (c f : String) (hsel : s.selected = some (c, f)) :
    (∀ pid, s.unbindPrev = some pid → s.hasFixtureUpdate = false →
      objGet fx c = none →
      (connectLoader s fx d).ok = false ∧
      mountCount (connectLoader s fx d).effects = 0 ∧
      (connectLoader s fx d).effects.filter Effect.isLogError = []) ∧
    (∀ pid m, s.unbindPrev = some pid → s.hasFixtureUpdate = false →
      objGet fx c = some m → objGet m f = none →
      Effect.mountContext none ∈ (connectLoader s fx d).effects ∧
      (connectLoader s fx d).effects.filter Effect.isLogError = []) ∧
    (∀ body : Obj Nat, objGet fx c = none →
      (onMessage fx d s (InMessage.fixtureEdit body)).ok = false ∧
      (onMessage fx d s (InMessage.fixtureEdit body)).state.hasFixtureUpdate = true ∧
      (onMessage fx d s (InMessage.fixtureEdit body)).effects = []) := by
  refine ⟨?_, ?_, ?_⟩
  · intro pid hp hupd hc
    have h := connectLoader_rebind_missingComponent s fx d pid (c, f) hp hsel
      hupd hc
    rw [h.1]
    refine ⟨h.2, ?_, ?_⟩ <;>
      simp [mountCount, Effect.isMount, Effect.isLogError]
  · intro pid m hp hupd hc hf
    have h := connectLoader_rebind_resync s fx d pid (c, f) m hp hsel hupd hc
    rw [h.1]
    have hf' : objGet m (c, f).2 = none := hf
    rw [hf']
    constructor
    · simp [loadFixture]
    · simp [loadFixture, Effect.isLogError, List.filter_append]
  · intro body hc
    refine ⟨?_, ?_, ?_⟩ <;> simp [onMessage, hsel, hc]

/-- Witness for C9: the stale `Button:default` selection against a registry
without `Button` (rebind and edit) and against a registry whose `Button` has
only `primary` (rebind mounting `undefined`). -/
theorem unguarded_stale_selection_witness :
    exampleLiveState.selected = some ("Button", "default") ∧
    objGet exampleFixturesOther "Button" = none ∧
    (connectLoader exampleLiveState exampleFixturesOther false).ok = false ∧
    (connectLoader exampleLiveState exampleFixturesOther false).effects.filter
      Effect.isLogError = [] ∧
    objGet exampleFixturesRenamed "Button" =
      some [("primary", [("label", FixtureValue.ser 2)])] ∧
    objGet [("primary", [("label", FixtureValue.ser 2)])] "default" = none ∧
    Effect.mountContext none ∈
      (connectLoader exampleLiveState exampleFixturesRenamed false).effects ∧
    (onMessage exampleFixturesOther false exampleLiveState
        (InMessage.fixtureEdit [("label", 9)])).ok = false ∧
    (onMessage exampleFixturesOther false exampleLiveState
        (InMessage.fixtureEdit [("label", 9)])).state.hasFixtureUpdate = true := by
  have h1 := unguarded_stale_selection exampleLiveState exampleFixturesOther
    false "Button" "default" rfl
  have h2 := unguarded_stale_selection exampleLiveState exampleFixturesRenamed
    false "Button" "default" rfl
  have ha := h1.1 0 rfl rfl (by decide)
  have hb := h2.2.1 0 [("primary", [("label", FixtureValue.ser 2)])] rfl rfl
    (by decide) (by decide)
  have hcEdit := h1.2.2 [("label", 9)] (by decide)
  exact ⟨rfl, by decide, ha.1, ha.2.2, by decide, by decide, hb.1,
    hcEdit.1, hcEdit.2.1⟩

/-- Claim C10: the `destroy` closure returned by a superseded bind call is
not inert.  The closure reads the module-global `unbindPrev`, so the one
returned by the first call behaves exactly like the one returned by the
second (both are the `destroy` state transformer): invoked after two
successive binds it unregisters the second binding listener — not the first
binding listener, which is already gone — and clears Selection and
PendingUpdateFlag. -/
theorem stale_destroy_tears_down_current (s : LoaderState)
    (fx1 fx2 : Fixtures) (d1 d2 : Bool) (h : ListenerInvariant s) :
    (destroy (connectLoader (connectLoader s fx1 d1).state fx2 d2).state).2 =
      [Effect.removeListener (s.nextId + 1)] ∧
    (connectLoader (connectLoader s fx1 d1).state fx2 d2).state.listeners =
      [s.nextId + 1] ∧
    s.nextId + 1 ≠ s.nextId ∧
    (destroy (connectLoader (connectLoader s fx1 d1).state fx2
        d2).state).1.listeners = [] ∧
    (destroy (connectLoader (connectLoader s fx1 d1).state fx2
        d2).state).1.selected = none ∧
    (destroy (connectLoader (connectLoader s fx1 d1).state fx2
        d2).state).1.hasFixtureUpdate = false := by
  have h1 : ListenerInvariant (connectLoader s fx1 d1).state :=
    connectLoader_invariant s fx1 d1 h
  have hls : (connectLoader (connectLoader s fx1 d1).state fx2
      d2).state.listeners = [(connectLoader s fx1 d1).state.nextId] :=
    connectLoader_listeners (connectLoader s fx1 d1).state fx2 d2 h1
  rw [connectLoader_nextId] at hls
  have hup : (connectLoader (connectLoader s fx1 d1).state fx2
      d2).state.unbindPrev = some (s.nextId + 1) := by
    rw [connectLoader_unbindPrev, connectLoader_nextId]
  rw [destroy_of_some _ (s.nextId + 1) hup]
  refine ⟨rfl, hls, Nat.succ_ne_self s.nextId, ?_, rfl, rfl⟩
  show ((connectLoader (connectLoader s fx1 d1).state fx2
    d2).state.listeners.filter (fun i => i != s.nextId + 1)) = []
  rw [hls]
  simp

/-- Witness for C10 from the initial state with the two example registries. -/
theorem stale_destroy_tears_down_current_witness :
    ListenerInvariant initState ∧
    (destroy (connectLoader (connectLoader initState exampleFixtures
        false).state exampleFixturesOther false).state).2 =
      [Effect.removeListener 1] ∧
    (destroy (connectLoader (connectLoader initState exampleFixtures
        false).state exampleFixturesOther false).state).1.selected = none ∧
    (destroy (connectLoader (connectLoader initState exampleFixtures
        false).state exampleFixturesOther false).state).1.hasFixtureUpdate =
      false := by
  have h := stale_destroy_tears_down_current initState exampleFixtures
    exampleFixturesOther false false rfl
  exact ⟨rfl, h.1, h.2.2.2.2.1, h.2.2.2.2.2⟩

end ConnectLoader
